import Mathlib

/-!
Verification development for the structured-query pipeline of the
Autonomous-Data-Analyst repository.  The definitions below are shallow
embeddings of the deterministic parts of the source:

* `build_sql_from_structure`   — agents/sql_agent.py, lines 53-95
* `validate_structure`         — the validation / normalization section of
                                 `generate_structure_node`, agents/sql_agent.py,
                                 lines 270-321
* `transform_sql_to_viz_data`  — tools/data_transformer.py, lines 7-83
* `run_sql`                    — tools/sql_executor.py, lines 12-33
* `build_and_execute_node`     — agents/sql_agent.py, lines 355-391

Python dictionaries with optional / nullable keys are embedded with `Option`;
where the distinction between an absent key and a key present with value
`None` is observable (it is, for `order_direction`, through
`dict.get("order_direction", "ASC")`), the field is `Option (Option _)`:
the outer `none` is an absent key, `some none` is a key holding `None`.
Python truthiness of the guarding `if` statements is embedded explicitly
(`None`, `""`, `[]`, `0` are falsy).
-/

/-- Operation enum of the `QueryStructure` TypedDict (`Literal["SELECT", "COUNT"]`). -/
inductive Op where
  | SELECT
  | COUNT
deriving DecidableEq, Repr

/-- One WHERE predicate: `WhereClause` TypedDict of agents/sql_agent.py.
The operator is kept as a string, as the TypedDict `Literal` is not enforced
at runtime. -/
structure WhereClause where
  column : String
  operator : String
  value : String
deriving DecidableEq, Repr

/-- The `QueryStructure` dictionary as the compiler receives it.
`order_direction : Option (Option String)`: outer `none` = key absent,
`some none` = key present with value `None` (what validation produces for a
null direction), `some (some d)` = key present with a string value. -/
structure QueryStructure where
  operation : Op
  table : String
  columns : List String
  whereC : Option (List WhereClause)
  order_by : Option String
  order_direction : Option (Option String)
  limit : Option Int
deriving DecidableEq, Repr

/-- Identifier quoting of the compiler: `f'"{col}"' if ' ' in col else col`.
The test is for the space character, U+0020, exactly as in the source
(membership taken over the character list of the string). -/
def quoteIdent (col : String) : String :=
  if col.data.contains ' ' then "\"" ++ col ++ "\"" else col

/-- Projection clause: `SELECT COUNT(*)` for COUNT, else the quoted column
list, else `SELECT *` when the column list is empty (sql_agent.py 60-68). -/
def projectionClause (s : QueryStructure) : String :=
  match s.operation with
  | .COUNT => "SELECT COUNT(*)"
  | .SELECT =>
      if s.columns = [] then "SELECT *"
      else "SELECT " ++ String.intercalate ", " (s.columns.map quoteIdent)

/-- Source clause: `f" FROM {structure['table']}"` (sql_agent.py 71), table
taken verbatim. -/
def fromClause (s : QueryStructure) : String :=
  " FROM " ++ s.table

/-- Rendering of one WHERE predicate: `f"{col} {op} {val}"` with the column
space-quoted and the value wrapped in single quotes with no escaping
(sql_agent.py 77-80). -/
def renderPredicate (c : WhereClause) : String :=
  quoteIdent c.column ++ " " ++ c.operator ++ " " ++ "'" ++ c.value ++ "'"

/-- WHERE clause, guarded by `if structure.get("where"):` — emitted only when
the key holds a non-empty list (sql_agent.py 74-82). -/
def whereClause (s : QueryStructure) : String :=
  match s.whereC with
  | some (c :: cs) => " WHERE " ++ String.intercalate " AND " ((c :: cs).map renderPredicate)
  | _ => ""

/-- Value of `structure.get("order_direction", "ASC")` as interpolated into the
f-string: the default fires only for an absent key; a present `None` renders
as the literal text `None`. -/
def directionText : Option (Option String) → String
  | none => "ASC"
  | some none => "None"
  | some (some d) => d

/-- ORDER BY clause, guarded by `if structure.get("order_by"):` — emitted only
for a non-empty order_by string (sql_agent.py 85-89). -/
def orderClause (s : QueryStructure) : String :=
  match s.order_by with
  | some col =>
      if col = "" then ""
      else " ORDER BY " ++ quoteIdent col ++ " " ++ directionText s.order_direction
  | none => ""

/-- LIMIT clause, guarded by
`if structure.get("limit") and structure["operation"] != "COUNT":`
(sql_agent.py 92-93); a limit of 0 is falsy in Python and emits nothing. -/
def limitClause (s : QueryStructure) : String :=
  match s.limit with
  | some n => if n = 0 then "" else if s.operation = .COUNT then "" else " LIMIT " ++ toString n
  | none => ""

/-- The deterministic SQL builder `build_sql_from_structure`
(agents/sql_agent.py 53-95): the clauses are appended in source order —
projection, FROM, WHERE, ORDER BY, LIMIT. -/
def build_sql_from_structure (s : QueryStructure) : String :=
  projectionClause s ++ fromClause s ++ whereClause s ++ orderClause s ++ limitClause s

/-- The raw intent dictionary as parsed from the proposer's JSON, before
validation (`json.loads` output in `generate_structure_node`).  A `none`
field covers both an absent key and a key holding JSON `null`: the two are
indistinguishable to every check and default the validation section performs
(for `order_direction` both end as a present `None` key in the output). -/
structure RawIntent where
  operation : Option Op
  table : Option String
  columns : Option (List String)
  whereCls : Option (List WhereClause)
  order_by : Option String
  order_direction : Option String
  limit : Option Int
deriving DecidableEq, Repr

/-- Which of the three validation contexts an unknown column was found in. -/
inductive Ctx where
  | selectCols
  | whereCls
  | orderBy
deriving DecidableEq, Repr

/-- The context-identifying fragment of the three `ValueError` messages of
`generate_structure_node` (sql_agent.py 282-302). -/
def ctxPhrase : Ctx → String
  | .selectCols => "not found in table."
  | .whereCls => "not found in WHERE clause."
  | .orderBy => "not found in ORDER BY."

/-- The full `ValueError` message raised for an unknown column, exactly as the
source formats it. -/
def mkColError (c : Ctx) (name : String) (avail : List String) : String :=
  "❌ Column '" ++ name ++ "' " ++ ctxPhrase c ++ "\nAvailable columns: " ++
    String.intercalate ", " avail

/-- First column of `cols` that is not in the schema column list — the column
at which the source's for-loop raises. -/
def findBadCol (avail : List String) (cols : List String) : Option String :=
  cols.find? (fun c => !(avail.contains c))

/-- First WHERE predicate whose column is not in the schema column list. -/
def findBadWhere (avail : List String) (cls : List WhereClause) : Option WhereClause :=
  cls.find? (fun c => !(avail.contains c.column))

/-- Default-filling of `generate_structure_node` (sql_agent.py 304-316)
together with the unconditional table overwrite (line 273): the structure
returned on validation success.  `order_direction` becomes a present key
(`some _`) whatever it was, mirroring
`if "order_direction" not in structure: structure["order_direction"] = None`. -/
def normalizeDefaults (raw : RawIntent) (resolvedTable : String) : QueryStructure :=
  { operation := raw.operation.getD .SELECT
    table := resolvedTable
    columns := raw.columns.getD []
    whereC := raw.whereCls
    order_by := raw.order_by
    order_direction := some raw.order_direction
    limit := raw.limit }

/-- The validation / normalization section of `generate_structure_node`
(agents/sql_agent.py 270-321): overwrite the table with the externally
resolved one, check the selected columns, then the WHERE columns, then the
ORDER BY column against the schema (raising a `ValueError`, embedded as the
message string, at the first offender), then fill defaults.  The guards
mirror Python truthiness: an absent/null/empty `columns` or `where` skips its
loop, an absent/null/empty `order_by` skips its check. -/
def validate_structure (raw : RawIntent) (resolvedTable : String)
    (avail : List String) : Except String QueryStructure :=
  match findBadCol avail (raw.columns.getD []) with
  | some c => .error (mkColError .selectCols c avail)
  | none =>
    match findBadWhere avail (raw.whereCls.getD []) with
    | some cl => .error (mkColError .whereCls cl.column avail)
    | none =>
      match raw.order_by with
      | some ob =>
          if ob = "" then .ok (normalizeDefaults raw resolvedTable)
          else if avail.contains ob then .ok (normalizeDefaults raw resolvedTable)
          else .error (mkColError .orderBy ob avail)
      | none => .ok (normalizeDefaults raw resolvedTable)

/-- First schema violation in the fixed order the claim states: select
columns, then WHERE predicates, then ORDER BY; `none` when the intent is
clean. -/
def firstViolation (raw : RawIntent) (avail : List String) : Option (Ctx × String) :=
  match findBadCol avail (raw.columns.getD []) with
  | some c => some (.selectCols, c)
  | none =>
    match findBadWhere avail (raw.whereCls.getD []) with
    | some cl => some (.whereCls, cl.column)
    | none =>
      match raw.order_by with
      | some ob =>
          if ob = "" then none
          else if avail.contains ob then none
          else some (.orderBy, ob)
      | none => none

/-- A Python scalar cell as it appears in SQL result rows: a string or an
integer (the two scalar kinds the claims exercise). -/
inductive PyScal where
  | str : String → PyScal
  | int : Int → PyScal
deriving DecidableEq, Repr

/-- One element of the sequence handed to the result shaper: either a tuple
of scalars (a row) or a bare scalar that is not a tuple (e.g. one character
of a string input). -/
inductive Elem where
  | tup : List PyScal → Elem
  | scal : PyScal → Elem
deriving DecidableEq, Repr

/-- The value `transform_sql_to_viz_data` receives: `None`, a dict, a list,
or a string (what `run_sql` actually returns). -/
inductive SqlInput where
  | pynone : SqlInput
  | pydict : List (String × PyScal) → SqlInput
  | pylist : List Elem → SqlInput
  | pystr : String → SqlInput
deriving DecidableEq, Repr

/-- Python truthiness of the shaper's input: `None`, `{}`, `[]` and `""` are
falsy. -/
def SqlInput.truthy : SqlInput → Bool
  | .pynone => false
  | .pydict d => !(d = [])
  | .pylist l => !(l = [])
  | .pystr s => !(s = "")

/-- Every value `transform_sql_to_viz_data` can produce: the empty list (for
falsy input), a dict passed through unchanged, the three shaped dicts, or
Python's implicit `None` when every branch falls through. -/
inductive VizData where
  | emptyList : VizData
  | passthrough : List (String × PyScal) → VizData
  | categorical : List PyScal → List Nat → Nat → List PyScal → VizData
  | numeric : List PyScal → Nat → VizData
  | rowTable : List (List (String × PyScal)) → List String → Nat → VizData
  | pyNone : VizData
deriving DecidableEq, Repr

/-- Python subscripting `item[i]` on a shaper element: tuples index their
cells, strings index their characters (yielding one-character strings),
integers raise `TypeError`; out-of-range raises `IndexError`.  Errors embed
as `Except.error`. -/
def pyIndex : Elem → Nat → Except String PyScal
  | .tup cells, i =>
      match cells.get? i with
      | some c => .ok c
      | none => .error "IndexError: tuple index out of range"
  | .scal (.str s), i =>
      match s.data.get? i with
      | some ch => .ok (.str (String.singleton ch))
      | none => .error "IndexError: string index out of range"
  | .scal (.int _), _ => .error "TypeError: int is not subscriptable"

/-- The comprehension `[item[0] for item in sql_result]`
(data_transformer.py 42), propagating the first subscripting error. -/
def extractFirsts : List Elem → Except String (List PyScal)
  | [] => .ok []
  | e :: es =>
      match pyIndex e 0 with
      | .error m => .error m
      | .ok v =>
          match extractFirsts es with
          | .error m => .error m
          | .ok vs => .ok (v :: vs)

/-- Distinct values of a list in order of first appearance — the key order of
`collections.Counter` built by insertion (data_transformer.py 47). -/
def firstSeen {α : Type} [DecidableEq α] : List α → List α
  | [] => []
  | x :: xs => x :: (firstSeen xs).filter (fun y => decide (y ≠ x))

/-- One `row_dict` of the multi-column branch (data_transformer.py 72-75):
pair `col_i` with `row[i]` for each i below the first row's arity. -/
def buildRowDict (row : Elem) : List Nat → Except String (List (String × PyScal))
  | [] => .ok []
  | i :: is =>
      match pyIndex row i with
      | .error m => .error m
      | .ok v =>
          match buildRowDict row is with
          | .error m => .error m
          | .ok rest => .ok (("col_" ++ toString i, v) :: rest)

/-- The per-row loop of the multi-column branch (data_transformer.py 70-76). -/
def buildRows (numCols : Nat) : List Elem → Except String (List (List (String × PyScal)))
  | [] => .ok []
  | r :: rs =>
      match buildRowDict r (List.range numCols) with
      | .error m => .error m
      | .ok d =>
          match buildRows numCols rs with
          | .error m => .error m
          | .ok ds => .ok (d :: ds)

/-- Classification of a non-empty list input (data_transformer.py 37-83):
branch on whether the FIRST element is a tuple and on its arity; arity 1
splits on the type of the first extracted value (categorical counting for a
string, the raw numeric list otherwise); other arities build the generic row
table; a non-tuple first element falls off the end of the function, which in
Python returns `None`. -/
def classifyRows : List Elem → Except String VizData
  | [] => .error "IndexError: list index out of range"
  | e :: rest =>
      match e with
      | .scal _ => .ok .pyNone
      | .tup cells =>
          if cells.length = 1 then
            match extractFirsts (e :: rest) with
            | .error m => .error m
            | .ok values =>
                match values.head? with
                | some (.str _) =>
                    .ok (.categorical (firstSeen values)
                          ((firstSeen values).map (fun k => values.count k))
                          values.length values)
                | _ => .ok (.numeric values values.length)
          else
            match buildRows cells.length (e :: rest) with
            | .error m => .error m
            | .ok rows =>
                .ok (.rowTable rows
                      ((List.range cells.length).map (fun i => "col_" ++ toString i))
                      (e :: rest).length)

/-- The result shaper `transform_sql_to_viz_data` (tools/data_transformer.py
7-83): falsy input returns `[]`; a dict is passed through; a non-list is
converted with `list(...)` (for a string: its characters as one-character
strings); then the tuple-based classification runs. -/
def transform_sql_to_viz_data (x : SqlInput) : Except String VizData :=
  if x.truthy then
    match x with
    | .pydict d => .ok (.passthrough d)
    | .pylist l => classifyRows l
    | .pystr s => classifyRows (s.data.map (fun c => Elem.scal (.str (String.singleton c))))
    | .pynone => .ok .emptyList
  else .ok .emptyList

/-- The executor wrapper `run_sql` (tools/sql_executor.py 12-33) over an
abstract database collaborator `dbRun` (the external `db.run`): an empty
result string is replaced by a fixed message, an engine exception is
re-raised with the `SQL execution error: ` prelude. -/
def run_sql (dbRun : String → Except String String) (query : String) :
    Except String String :=
  match dbRun query with
  | .ok result => if result = "" then .ok "Query returned no results." else .ok result
  | .error e => .error ("SQL execution error: " ++ e)

/-- The `result` field of the state returned by `build_and_execute_node`:
either the executor's string, or the `{"error": str(e)}` dict built in the
except-branch. -/
inductive ExecOutcome where
  | value : String → ExecOutcome
  | errorDict : String → ExecOutcome
deriving DecidableEq, Repr

/-- The slice of `SQLAgentState` that `build_and_execute_node` returns:
message content, the attempted SQL string, and the result field. -/
structure NodeResult where
  message : String
  sql_query : String
  result : ExecOutcome
deriving DecidableEq, Repr

/-- The node `build_and_execute_node` (agents/sql_agent.py 355-391): build the
SQL from the structure, run it, and on any executor exception return a normal
state carrying the attempted query and an error dict instead of propagating. -/
def build_and_execute_node (dbRun : String → Except String String)
    (qs : QueryStructure) : NodeResult :=
  let sql := build_sql_from_structure qs
  match run_sql dbRun sql with
  | .ok r =>
      { message := "SQL executed successfully", sql_query := sql, result := .value r }
  | .error e =>
      { message := "SQL execution failed: " ++ e, sql_query := sql,
        result := .errorDict e }

/-- First-appearance order as the specification phrases it, written as a left
fold that appends each value the first time it is seen — the reference
definition the shaper's category order is compared against. -/
def firstAppearance {α : Type} [DecidableEq α] (l : List α) : List α :=
  l.foldl (fun acc v => if v ∈ acc then acc else acc ++ [v]) []

/-- Whether a string contains any whitespace character (the claim's notion of
whitespace for identifier quoting). -/
def containsWhitespace (s : String) : Bool :=
  s.data.any Char.isWhitespace

/-- Spec scenario 2: SELECT with a spaced column, ordering, and a limit. -/
def qsSelectExample : QueryStructure :=
  ⟨.SELECT, "people", ["First Name"], none, some "Date of birth", some (some "ASC"), some 3⟩

/-- Spec scenario 1: COUNT with one WHERE predicate. -/
def qsCountExample : QueryStructure :=
  ⟨.COUNT, "people", [], some [⟨"Sex", "=", "Male"⟩], none, none, none⟩

/-- A COUNT structure whose limit field is nevertheless set. -/
def qsCountLimited : QueryStructure :=
  ⟨.COUNT, "people", [], some [⟨"Sex", "=", "Male"⟩], none, none, some 5⟩

/-- A raw intent whose order_direction is JSON null while order_by is set. -/
def rawNullDirection : RawIntent :=
  ⟨some .SELECT, some "people", some [], none, some "Index", none, none⟩

/-- The validated structure produced from `rawNullDirection`: the
order_direction key is present and holds `None`. -/
def qsNullDirection : QueryStructure :=
  ⟨.SELECT, "people", [], none, some "Index", some none, none⟩

/-- The schema columns of the spec's concrete scenarios. -/
def peopleCols : List String :=
  ["Index", "First Name", "Last Name", "Sex", "Email"]

/-- Spec scenario 6: an intent whose WHERE predicate references `Gender`
against a schema that has `Sex` but no `Gender`. -/
def rawGenderWhere : RawIntent :=
  ⟨some .COUNT, some "people", some [], some [⟨"Gender", "=", "Male"⟩], none, none, none⟩

/-- A raw intent referencing only schema columns, used to exercise the
success path of validation. -/
def rawClean : RawIntent :=
  ⟨some .SELECT, some "people", some ["Sex"], none, some "Index", some "DESC", some 2⟩

/-- A structure whose single selected column contains a tab — whitespace that
is not the space character. -/
def qsTabColumn : QueryStructure :=
  ⟨.SELECT, "t", ["a\tb"], none, none, none, none⟩

/-- Spec scenario 3: a single-column string result, Male/Female/Male. -/
def vsMF : List PyScal :=
  [.str "Male", .str "Female", .str "Male"]

/-- A database collaborator that always raises, standing for an engineError
such as a missing table. -/
def dbFail : String → Except String String :=
  fun _ => .error "no such table: people"

/-- C1: for every validated structure with operation COUNT the compiled string
carries no LIMIT clause even when the limit field is a positive integer (the
limit clause is empty and the output coincides with the limit-free
compilation), and a LIMIT clause is emitted only when the operation is SELECT
and limit is set (to a nonzero value). -/
theorem count_never_limited (s : QueryStructure) :
    (s.operation = .COUNT →
       limitClause s = "" ∧
       build_sql_from_structure s = build_sql_from_structure { s with limit := none } ∧
       build_sql_from_structure s =
         projectionClause s ++ fromClause s ++ whereClause s ++ orderClause s) ∧
    (limitClause s ≠ "" → s.operation = .SELECT ∧ ∃ n : Int, s.limit = some n ∧ n ≠ 0) ∧
    (∀ n : Int, s.operation = .SELECT → s.limit = some n → n ≠ 0 →
       build_sql_from_structure s =
         projectionClause s ++ fromClause s ++ whereClause s ++ orderClause s ++
           (" LIMIT " ++ toString n)) := by
  refine ⟨?_, ?_, ?_⟩
  · intro h
    have hl : limitClause s = "" := by
      unfold limitClause
      cases hL : s.limit with
      | none => rfl
      | some n => simp [h]
    have hb : build_sql_from_structure s =
        projectionClause s ++ fromClause s ++ whereClause s ++ orderClause s := by
      rw [build_sql_from_structure, hl, String.append_empty]
    have h2 : build_sql_from_structure { s with limit := none } =
        projectionClause s ++ fromClause s ++ whereClause s ++ orderClause s ++ "" := rfl
    refine ⟨hl, ?_, hb⟩
    rw [hb, h2, String.append_empty]
  · intro h
    unfold limitClause at h
    cases hL : s.limit with
    | none => rw [hL] at h; simp at h
    | some n =>
      rw [hL] at h
      by_cases h0 : n = 0
      · simp [h0] at h
      · by_cases hop : s.operation = .COUNT
        · simp [h0, hop] at h
        · have hsel : s.operation = .SELECT := by
            cases hc : s.operation with
            | SELECT => rfl
            | COUNT => exact absurd hc hop
          exact ⟨hsel, n, rfl, h0⟩
  · intro n hsel hL h0
    rw [build_sql_from_structure]
    unfold limitClause
    rw [hL, hsel]
    simp [h0]

/-- Witness for C1 at concrete structures: a COUNT structure with limit 5
compiles without any limit clause, identically to its limit-free variant, and
the SELECT example's non-empty limit clause certifies SELECT with a set
nonzero limit. -/
theorem count_never_limited_witness :
    limitClause qsCountLimited = "" ∧
    build_sql_from_structure qsCountLimited =
      build_sql_from_structure { qsCountLimited with limit := none } ∧
    (qsSelectExample.operation = .SELECT ∧
       ∃ n : Int, qsSelectExample.limit = some n ∧ n ≠ 0) :=
  ⟨((count_never_limited qsCountLimited).1 rfl).1,
   ((count_never_limited qsCountLimited).1 rfl).2.1,
   (count_never_limited qsSelectExample).2.1 (by decide)⟩

/-- C2 (code bug): a validated structure whose order_by is set while
order_direction holds null compiles to an ordering clause ending in the
literal text `None`, not `ASC`: `dict.get("order_direction", "ASC")` defaults
only for an absent key, and validation makes the key always present.  The
ASC default fires only in the absent-key case shown last. -/
theorem order_direction_null_emits_none :
    validate_structure rawNullDirection "people" ["Index"] = .ok qsNullDirection ∧
    build_sql_from_structure qsNullDirection =
      "SELECT * FROM people ORDER BY Index None" ∧
    build_sql_from_structure qsNullDirection ≠
      "SELECT * FROM people ORDER BY Index ASC" ∧
    build_sql_from_structure { qsNullDirection with order_direction := none } =
      "SELECT * FROM people ORDER BY Index ASC" :=
  ⟨rfl, rfl, by decide, rfl⟩

/-- C6: the compiler reproduces the two concrete scenario strings of the
specification exactly. -/
theorem compile_concrete_examples :
    build_sql_from_structure qsSelectExample =
      "SELECT \"First Name\" FROM people ORDER BY \"Date of birth\" ASC LIMIT 3" ∧
    build_sql_from_structure qsCountExample =
      "SELECT COUNT(*) FROM people WHERE Sex = 'Male'" :=
  ⟨rfl, rfl⟩

/-- Validation is equivalent to scanning for the first schema violation in
the fixed order select-columns, WHERE, ORDER BY: it errors with exactly the
message of that first violation, and otherwise returns the fully normalized
structure. -/
theorem validate_eq_spec (raw : RawIntent) (t : String) (avail : List String) :
    validate_structure raw t avail =
      match firstViolation raw avail with
      | some (ctx, name) => .error (mkColError ctx name avail)
      | none => .ok (normalizeDefaults raw t) := by
  unfold validate_structure firstViolation
  cases findBadCol avail (raw.columns.getD []) with
  | some c => rfl
  | none =>
    cases findBadWhere avail (raw.whereCls.getD []) with
    | some cl => rfl
    | none =>
      cases raw.order_by with
      | none => rfl
      | some ob =>
        by_cases h1 : ob = ""
        · simp [h1]
        · by_cases h2 : ob ∈ avail
          · simp [h1, h2]
          · simp [h1, h2]

/-- C3: the table of the validated structure equals the externally resolved
table name, and the whole result of validation is independent of whatever
table the raw intent proposed. -/
theorem validate_table_override (raw : RawIntent) (t : String)
    (avail : List String) (proposed : Option String) :
    validate_structure { raw with table := proposed } t avail =
      validate_structure raw t avail ∧
    ∀ st, validate_structure raw t avail = .ok st → st.table = t := by
  constructor
  · rfl
  · intro st h
    rw [validate_eq_spec] at h
    cases hv : firstViolation raw avail with
    | some p => rw [hv] at h; cases h
    | none =>
      rw [hv] at h
      simp only [Except.ok.injEq] at h
      rw [← h]
      rfl

/-- Witness for C3: a clean intent validated against the people schema gives
the same outcome whether or not its proposed table was tampered with, and the
validated table is the resolved one. -/
theorem validate_table_override_witness :
    validate_structure { rawClean with table := some "hacked" } "people" peopleCols =
      validate_structure rawClean "people" peopleCols ∧
    (normalizeDefaults rawClean "people").table = "people" :=
  ⟨(validate_table_override rawClean "people" peopleCols (some "hacked")).1,
   (validate_table_override rawClean "people" peopleCols (some "hacked")).2
     (normalizeDefaults rawClean "people") (by rw [validate_eq_spec]; rfl)⟩

/-- C4: whenever any checked field references a column outside the schema,
validation fails (the scan is total: a bad select column, WHERE column, or
non-empty ORDER BY column each force a violation to be found); the error
raised is exactly the message for the FIRST violation in the fixed order
select-columns then WHERE then ORDER BY; the message carries the offending
name and a context phrase that distinguishes the three contexts; and with no
violation validation returns the fully normalized structure, dropping
nothing. -/
theorem validate_unknown_column_first_violation (raw : RawIntent) (t : String)
    (avail : List String) :
    (∀ ctx name, firstViolation raw avail = some (ctx, name) →
       validate_structure raw t avail =
         .error ("❌ Column '" ++ name ++ "' " ++ ctxPhrase ctx ++
           "\nAvailable columns: " ++ String.intercalate ", " avail)) ∧
    (firstViolation raw avail = none →
       validate_structure raw t avail = .ok (normalizeDefaults raw t)) ∧
    (∀ c c', ctxPhrase c = ctxPhrase c' → c = c') ∧
    (∀ c, c ∈ raw.columns.getD [] → avail.contains c = false →
       (firstViolation raw avail).isSome = true) ∧
    (∀ cl, cl ∈ raw.whereCls.getD [] → avail.contains cl.column = false →
       (firstViolation raw avail).isSome = true) ∧
    (∀ ob, raw.order_by = some ob → ob ≠ "" → avail.contains ob = false →
       (firstViolation raw avail).isSome = true) := by
  refine ⟨?_, ?_, ?_, ?_, ?_, ?_⟩
  · intro ctx name h
    rw [validate_eq_spec, h]
    rfl
  · intro h
    rw [validate_eq_spec, h]
  · intro c c' h
    cases c <;> cases c' <;> first | rfl | exact absurd h (by decide)
  · intro c hc hbad
    unfold firstViolation
    cases h1 : findBadCol avail (raw.columns.getD []) with
    | some x => rfl
    | none =>
      exfalso
      have := List.find?_eq_none.mp h1 c hc
      simp at this hbad
      exact hbad this
  · intro cl hcl hbad
    unfold firstViolation
    cases h1 : findBadCol avail (raw.columns.getD []) with
    | some x => rfl
    | none =>
      cases h2 : findBadWhere avail (raw.whereCls.getD []) with
      | some x => rfl
      | none =>
        exfalso
        have := List.find?_eq_none.mp h2 cl hcl
        simp at this hbad
        exact hbad this
  · intro ob hob hne hbad
    unfold firstViolation
    cases h1 : findBadCol avail (raw.columns.getD []) with
    | some x => rfl
    | none =>
      cases h2 : findBadWhere avail (raw.whereCls.getD []) with
      | some x => rfl
      | none =>
        rw [hob]
        simp at hbad
        simp [hne, hbad]

/-- Witness for C4: the Gender-in-WHERE intent of spec scenario 6 fails with
the WHERE-context message naming Gender, and a clean intent validates to its
normalized structure. -/
theorem validate_unknown_column_first_violation_witness :
    validate_structure rawGenderWhere "people" peopleCols =
      .error ("❌ Column '" ++ "Gender" ++ "' " ++ ctxPhrase .whereCls ++
        "\nAvailable columns: " ++ String.intercalate ", " peopleCols) ∧
    validate_structure rawClean "people" peopleCols =
      .ok (normalizeDefaults rawClean "people") :=
  ⟨(validate_unknown_column_first_violation rawGenderWhere "people" peopleCols).1
     .whereCls "Gender" rfl,
   (validate_unknown_column_first_violation rawClean "people" peopleCols).2.1 rfl⟩

/-- Counterexample to C5 as stated: the identifier `a<TAB>b` contains
whitespace, yet the compiler emits it unquoted — no double-quote character
appears anywhere in the compiled string.  The source tests for the space
character only, not for whitespace. -/
theorem quoting_whitespace_counterexample :
    containsWhitespace "a\tb" = true ∧
    quoteIdent "a\tb" = "a\tb" ∧
    build_sql_from_structure qsTabColumn = "SELECT a\tb FROM t" ∧
    (build_sql_from_structure qsTabColumn).data.contains '\"' = false :=
  ⟨rfl, rfl, rfl, rfl⟩

/-- C5 amended: each emitted column identifier (projection, WHERE, ORDER BY)
is wrapped in double quotes if and only if it contains a space character
(U+0020), and is emitted verbatim otherwise; the table after FROM is emitted
verbatim, never quoted. -/
theorem quoting_space_character (s : QueryStructure) (c : String) :
    (quoteIdent c = c ∨ quoteIdent c = "\"" ++ c ++ "\"") ∧
    (quoteIdent c ≠ c ↔ c.data.contains ' ' = true) ∧
    (c.data.contains ' ' = true → quoteIdent c = "\"" ++ c ++ "\"") ∧
    (c.data.contains ' ' = false → quoteIdent c = c) ∧
    fromClause s = " FROM " ++ s.table ∧
    (s.operation = .SELECT → s.columns ≠ [] →
       projectionClause s =
         "SELECT " ++ String.intercalate ", " (s.columns.map quoteIdent)) ∧
    (∀ l, s.whereC = some l → l ≠ [] →
       whereClause s = " WHERE " ++ String.intercalate " AND " (l.map renderPredicate)) ∧
    (∀ ob, s.order_by = some ob → ob ≠ "" →
       orderClause s =
         " ORDER BY " ++ quoteIdent ob ++ " " ++ directionText s.order_direction) := by
  have hq : c.data.contains ' ' = true → quoteIdent c = "\"" ++ c ++ "\"" := by
    intro hsp
    unfold quoteIdent
    rw [if_pos hsp]
  have hu : c.data.contains ' ' = false → quoteIdent c = c := by
    intro hsp
    have hsp2 : ' ' ∉ c.data := by simpa using hsp
    simp [quoteIdent, hsp2]
  refine ⟨?_, ⟨?_, ?_⟩, hq, hu, rfl, ?_, ?_, ?_⟩
  · cases hsp : c.data.contains ' ' with
    | true => exact Or.inr (hq hsp)
    | false => exact Or.inl (hu hsp)
  · intro hne
    cases hsp : c.data.contains ' ' with
    | true => rfl
    | false => exact absurd (hu hsp) hne
  · intro hsp
    rw [hq hsp]
    intro h
    have hlen := congrArg String.length h
    have h1 : "\"".length = 1 := rfl
    simp only [String.length_append, h1] at hlen
    omega
  · intro hop hcols
    simp [projectionClause, hop, hcols]
  · intro l hw hne
    cases l with
    | nil => exact absurd rfl hne
    | cons a as => simp [whereClause, hw]
  · intro ob hob hne
    simp [orderClause, hob, hne]

/-- Witness for the amended C5 at concrete identifiers and the SELECT
example structure: a spaced identifier is quoted, an unspaced one is not, and
the projection and ordering clauses are assembled from the space-quoted
forms. -/
theorem quoting_space_character_witness :
    quoteIdent "First Name" = "\"" ++ "First Name" ++ "\"" ∧
    quoteIdent "Email" = "Email" ∧
    projectionClause qsSelectExample =
      "SELECT " ++ String.intercalate ", " (qsSelectExample.columns.map quoteIdent) ∧
    orderClause qsSelectExample =
      " ORDER BY " ++ quoteIdent "Date of birth" ++ " " ++
        directionText qsSelectExample.order_direction :=
  ⟨(quoting_space_character qsSelectExample "First Name").2.2.1 rfl,
   (quoting_space_character qsSelectExample "Email").2.2.2.1 rfl,
   (quoting_space_character qsSelectExample "First Name").2.2.2.2.2.1 rfl (by decide),
   (quoting_space_character qsSelectExample "First Name").2.2.2.2.2.2.2
     "Date of birth" rfl (by decide)⟩

/-- Membership in the first-seen list is membership in the source list. -/
theorem mem_firstSeen {α : Type} [DecidableEq α] (a : α) (l : List α) :
    a ∈ firstSeen l ↔ a ∈ l := by
  induction l with
  | nil => simp [firstSeen]
  | cons x xs ih =>
    by_cases hax : a = x
    · simp [firstSeen, hax]
    · simp [firstSeen, List.mem_filter, ih, hax]

/-- The first-seen list has no duplicates. -/
theorem nodup_firstSeen {α : Type} [DecidableEq α] (l : List α) :
    (firstSeen l).Nodup := by
  induction l with
  | nil => simp [firstSeen]
  | cons x xs ih =>
    refine List.nodup_cons.mpr ⟨?_, ih.filter _⟩
    intro hx
    simp [List.mem_filter] at hx

/-- Dropping one element from a duplicate-free list removes exactly its
contribution from a mapped sum. -/
theorem sum_map_filter_ne {α : Type} [DecidableEq α] (l : List α)
    (hn : l.Nodup) (f : α → Nat) (x : α) :
    ((l.filter (fun y => decide (y ≠ x))).map f).sum +
      (if x ∈ l then f x else 0) = (l.map f).sum := by
  induction l with
  | nil => simp
  | cons y ys ih =>
    rcases List.nodup_cons.mp hn with ⟨hy, hys⟩
    by_cases hyx : y = x
    · subst hyx
      have hf : ys.filter (fun z => !decide (z = y)) = ys := by
        apply List.filter_eq_self.mpr
        intro a ha
        simp
        intro h
        exact hy (h ▸ ha)
      simp [hf, Nat.add_comm]
    · have hd : (decide (y ≠ x)) = true := by simp [hyx]
      simp only [List.filter_cons, hd, if_true, List.map_cons, List.sum_cons,
        List.mem_cons]
      have hxy : (x = y) = False := by
        simp
        intro h
        exact hyx h.symm
      simp only [hxy, false_or]
      have h2 := ih hys
      by_cases hx : x ∈ ys <;> simp [hx] at h2 ⊢ <;> omega

/-- Summing the occurrence counts over the first-seen categories recovers the
length of the source list. -/
theorem sum_counts_eq_length {α : Type} [DecidableEq α] (l : List α) :
    ((firstSeen l).map (fun k => l.count k)).sum = l.length := by
  induction l with
  | nil => simp [firstSeen]
  | cons x xs ih =>
    simp only [firstSeen, List.map_cons, List.sum_cons, List.length_cons]
    have hcx : (x :: xs).count x = xs.count x + 1 := List.count_cons_self x xs
    have hmap : ((firstSeen xs).filter (fun y => decide (y ≠ x))).map
          (fun k => (x :: xs).count k)
        = ((firstSeen xs).filter (fun y => decide (y ≠ x))).map
          (fun k => xs.count k) := by
      apply List.map_congr_left
      intro a ha
      have hax : a ≠ x := by
        simp [List.mem_filter] at ha
        exact ha.2
      simp [List.count_cons, hax]
    rw [hcx, hmap]
    have h2 := sum_map_filter_ne (firstSeen xs) (nodup_firstSeen xs)
      (fun k => xs.count k) x
    by_cases hx : x ∈ xs
    · have hxf : x ∈ firstSeen xs := (mem_firstSeen x xs).mpr hx
      rw [if_pos hxf, ih] at h2
      omega
    · have hxf : x ∉ firstSeen xs := fun hc => hx ((mem_firstSeen x xs).mp hc)
      rw [if_neg hxf, ih] at h2
      have hc0 : xs.count x = 0 := List.count_eq_zero.mpr hx
      omega

/-- Generalized fold form of first-appearance accumulation. -/
theorem foldl_firstAppearance {α : Type} [DecidableEq α] (l : List α) :
    ∀ acc : List α,
      l.foldl (fun acc v => if v ∈ acc then acc else acc ++ [v]) acc =
        acc ++ (firstSeen l).filter (fun y => decide (y ∉ acc)) := by
  induction l with
  | nil => intro acc; simp [firstSeen]
  | cons x xs ih =>
    intro acc
    simp only [List.foldl_cons, firstSeen]
    by_cases hx : x ∈ acc
    · rw [if_pos hx, ih]
      congr 1
      rw [List.filter_cons]
      have hdx : (decide (x ∉ acc)) = false := by simp [hx]
      rw [hdx]
      simp only [Bool.false_eq_true, if_false, List.filter_filter]
      apply List.filter_congr
      intro a ha
      by_cases hax : a = x
      · subst hax; simp [hx]
      · simp [hax]
    · rw [if_neg hx, ih]
      rw [List.filter_cons]
      have hdx : (decide (x ∉ acc)) = true := by simp [hx]
      rw [hdx]
      simp only [if_true, List.append_assoc, List.singleton_append,
        List.filter_filter]
      congr 2
      apply List.filter_congr
      intro a ha
      by_cases hax : a = x <;> by_cases hacc : a ∈ acc <;>
        simp [hax, hacc, List.mem_append]

/-- The shaper's category order (insertion order of the counting structure)
coincides with the specification's first-appearance fold. -/
theorem firstSeen_eq_firstAppearance {α : Type} [DecidableEq α] (l : List α) :
    firstSeen l = firstAppearance l := by
  rw [firstAppearance, foldl_firstAppearance l []]
  simp

/-- Extracting the first cell of each singleton-tuple row recovers the
underlying scalars. -/
theorem extractFirsts_tup_singleton (vs : List PyScal) :
    extractFirsts (vs.map (fun v => Elem.tup [v])) = .ok vs := by
  induction vs with
  | nil => rfl
  | cons v vs ih => simp [extractFirsts, pyIndex, ih]

/-- Classification of a non-empty single-column result whose first value is a
string yields the categorical aggregate built from occurrence counts in
first-seen order. -/
theorem classifyRows_singleton_str (s0 : String) (vs' : List PyScal) :
    classifyRows ((PyScal.str s0 :: vs').map (fun v => Elem.tup [v])) =
      .ok (.categorical (firstSeen (PyScal.str s0 :: vs'))
            ((firstSeen (PyScal.str s0 :: vs')).map
              (fun k => (PyScal.str s0 :: vs').count k))
            (PyScal.str s0 :: vs').length (PyScal.str s0 :: vs')) := by
  have he := extractFirsts_tup_singleton (PyScal.str s0 :: vs')
  simp only [List.map_cons] at he ⊢
  unfold classifyRows
  simp [he]

/-- C7: on the empty row list and on `None` the shaper returns the empty-list
variant without raising, and that variant is distinct from each of the three
tagged shapes. -/
theorem shape_empty_input :
    transform_sql_to_viz_data .pynone = .ok .emptyList ∧
    transform_sql_to_viz_data (.pylist []) = .ok .emptyList ∧
    (∀ a b c d, VizData.emptyList ≠ VizData.categorical a b c d) ∧
    (∀ a b, VizData.emptyList ≠ VizData.numeric a b) ∧
    (∀ a b c, VizData.emptyList ≠ VizData.rowTable a b c) :=
  ⟨rfl, rfl, fun a b c d => by simp, fun a b => by simp, fun a b c => by simp⟩

/-- C8: for every non-empty single-column input whose first value is a
string, the shaper produces the categorical aggregate whose counts sum to
the total, the total is the number of input rows, categories and counts have
equal length, and the category order is first-appearance order. -/
theorem categorical_aggregate_invariants (vs : List PyScal) (elems : List Elem)
    (hsc : elems = vs.map (fun v => Elem.tup [v]))
    (hne : vs ≠ [])
    (hstr : ∃ s, vs.head? = some (PyScal.str s)) :
    transform_sql_to_viz_data (.pylist elems) =
      .ok (.categorical (firstSeen vs)
            ((firstSeen vs).map (fun k => vs.count k)) vs.length vs) ∧
    ((firstSeen vs).map (fun k => vs.count k)).sum = vs.length ∧
    (firstSeen vs).length = ((firstSeen vs).map (fun k => vs.count k)).length ∧
    firstSeen vs = firstAppearance vs ∧
    vs.length = elems.length := by
  obtain ⟨s0, hs0⟩ := hstr
  subst hsc
  cases vs with
  | nil => exact absurd rfl hne
  | cons v vs' =>
    have hv : v = .str s0 := by simpa using hs0
    subst hv
    refine ⟨?_, sum_counts_eq_length _, (List.length_map _ _).symm,
      firstSeen_eq_firstAppearance _, by simp⟩
    have hc := classifyRows_singleton_str s0 vs'
    simp only [List.map_cons, List.length_cons] at hc
    simp [transform_sql_to_viz_data, SqlInput.truthy, hc]

/-- Witness for C8 at the Male/Female/Male rows of spec scenario 3. -/
theorem categorical_aggregate_invariants_witness :
    transform_sql_to_viz_data (.pylist (vsMF.map (fun v => Elem.tup [v]))) =
      .ok (.categorical (firstSeen vsMF)
            ((firstSeen vsMF).map (fun k => vsMF.count k)) vsMF.length vsMF) ∧
    ((firstSeen vsMF).map (fun k => vsMF.count k)).sum = vsMF.length :=
  ⟨(categorical_aggregate_invariants vsMF (vsMF.map (fun v => Elem.tup [v]))
      rfl (by decide) ⟨"Male", rfl⟩).1,
   (categorical_aggregate_invariants vsMF (vsMF.map (fun v => Elem.tup [v]))
      rfl (by decide) ⟨"Male", rfl⟩).2.1⟩

/-- C9: when execution of the built query fails, the node still returns a
normal state whose sql_query is the exact attempted query string and whose
result is the error dict carrying the underlying message — the exception is
not propagated. -/
theorem execution_failure_structured
    (dbRun : String → Except String String) (qs : QueryStructure) (e : String)
    (h : run_sql dbRun (build_sql_from_structure qs) = .error e) :
    build_and_execute_node dbRun qs =
      { message := "SQL execution failed: " ++ e,
        sql_query := build_sql_from_structure qs,
        result := .errorDict e } := by
  simp [build_and_execute_node, h]

/-- Witness for C9: an always-raising database collaborator makes the COUNT
example node return a state carrying the attempted query and the wrapped
engine message. -/
theorem execution_failure_structured_witness :
    build_and_execute_node dbFail qsCountExample =
      { message := "SQL execution failed: " ++
          "SQL execution error: no such table: people",
        sql_query := build_sql_from_structure qsCountExample,
        result := .errorDict "SQL execution error: no such table: people" } :=
  execution_failure_structured dbFail qsCountExample
    "SQL execution error: no such table: people" rfl

/-- C10: the non-empty string `run_sql` returns for a rowless query is a
non-dict sequence whose first element is not a tuple, and on it the shaper
falls through every branch to Python's implicit `None` — a value that is
neither the empty-result variant nor any of the three tagged shapes. -/
theorem shaper_string_input_returns_none :
    run_sql (fun _ => Except.ok "") "SELECT COUNT(*) FROM people" =
      .ok "Query returned no results." ∧
    transform_sql_to_viz_data (.pystr "Query returned no results.") =
      .ok .pyNone ∧
    VizData.pyNone ≠ VizData.emptyList ∧
    (∀ a b c d, VizData.pyNone ≠ VizData.categorical a b c d) ∧
    (∀ a b, VizData.pyNone ≠ VizData.numeric a b) ∧
    (∀ a b c, VizData.pyNone ≠ VizData.rowTable a b c) :=
  ⟨rfl, rfl, by simp, fun a b c d => by simp, fun a b => by simp,
   fun a b c => by simp⟩
